import Mathlib

/-!
Verification of the CyberGuard fraud-detection heuristics.

Shallow embedding of the scoring and moderation logic of `src/app.py`
(`pattern_score_ussd`, `improved_check_sms_scam`, the `/check-ussd`
endpoint, the community-report moderation endpoints and the flat-file
readers), plus `check_sms_message` from `src/cyberguard_clean.py`.

Modelling conventions:
- Python strings are `List Char`; Python integers are `Nat` (every score in
  the source stays non-negative, and Python `max(0, x - k)` coincides with
  truncated subtraction on `Nat`).
- Python regular expressions are translated into explicit scanning
  functions over `List Char`; the character classes `\d` and `[A-Za-z]`
  are modelled over ASCII.
- File I/O is modelled by passing file contents (and, for the JSON
  readers, the `json.loads` parser) as explicit arguments; a raised
  exception is `none` / `Option.none`.
- `/check-ussd` is modelled with `full_mode = False` (the shipped
  configuration has `TRUSTED_USSD_SOURCE_URLS = []`, so the online branch
  of `full_mode` can never change its result).
-/

namespace CyberGuard

/-- ASCII whitespace as recognised by Python `str.strip` / `str.split` and
the regex class `\s`: space, tab, newline, carriage return, vertical tab,
form feed. -/
def isPySpace (c : Char) : Bool :=
  c == ' ' || c == '\t' || c == '\n' || c == '\r' ||
    c == Char.ofNat 11 || c == Char.ofNat 12

/-- Python `str.strip`: drop leading and trailing whitespace. -/
def pyStrip (l : List Char) : List Char :=
  ((l.dropWhile isPySpace).reverse.dropWhile isPySpace).reverse

/-- Python `str.replace(" ", "")`. -/
def removeSpaces (l : List Char) : List Char :=
  l.filter (fun c => c != ' ')

/-- `normalize_ussd` from app.py: `code.strip().replace(" ", "") if code
else ""` (the guard is redundant: both branches send `""` to `""`). -/
def normalize_ussd (code : List Char) : List Char :=
  removeSpaces (pyStrip code)

/-- Python `str.lower`, over ASCII. -/
def toLowerL (l : List Char) : List Char :=
  l.map Char.toLower

/-- Shorthand turning a string literal into the `List Char` model. -/
def toL (s : String) : List Char :=
  s.data

/-- Substring test, Python `pat in hay`. -/
def containsSub (pat : List Char) : List Char → Bool
  | [] => pat.isPrefixOf ([] : List Char)
  | hay@(_ :: t) => pat.isPrefixOf hay || containsSub pat t

/-- Suffix just after the first occurrence of `pat`, if any.  Used to model
`re.search` on patterns that chain literals with `.*`. -/
def afterSub (pat : List Char) : List Char → Option (List Char)
  | [] => if pat.isPrefixOf ([] : List Char) then some [] else none
  | hay@(_ :: t) =>
    if pat.isPrefixOf hay then some (hay.drop pat.length) else afterSub pat t

/-- Unanchored search: `p` holds on some suffix.  Models `re.search` whose
match-at-one-position test is `p`. -/
def scanP (p : List Char → Bool) : List Char → Bool
  | [] => p []
  | l@(_ :: t) => p l || scanP p t

/-- Python `str.split(sep)` for a one-character separator (keeps empty
pieces, and `"".split(sep) = [""]`). -/
def splitOnChar (sep : Char) : List Char → List (List Char)
  | [] => [[]]
  | h :: t =>
    if h == sep then [] :: splitOnChar sep t
    else
      match splitOnChar sep t with
      | [] => [[h]]
      | x :: xs => (h :: x) :: xs

/-- Split on every character satisfying `p`, keeping empty pieces. -/
def splitPred (p : Char → Bool) : List Char → List (List Char)
  | [] => [[]]
  | h :: t =>
    if p h then [] :: splitPred p t
    else
      match splitPred p t with
      | [] => [[h]]
      | x :: xs => (h :: x) :: xs

/-- Python `str.split()` with no argument: split on whitespace runs and
drop empty pieces. -/
def splitWs (l : List Char) : List (List Char) :=
  (splitPred isPySpace l).filter (fun w => w ≠ [])

/-- The character class of the USSD format regex
`^\*[\d\*\#A-Za-z]+#?$` (app.py lines 235 and 280). -/
def ussdClassChar (c : Char) : Bool :=
  c.isDigit || c == '*' || c == '#' || c.isAlpha

/-- Full-string match of `^\*[\d\*\#A-Za-z]+#?$`.  Since `#` belongs to
the character class, the optional trailing `#` is absorbed by the `+`, so
the language is: a leading `*` followed by a non-empty run of class
characters. -/
def ussd_format (c : List Char) : Bool :=
  match c with
  | '*' :: t => !t.isEmpty && t.all ussdClassChar
  | _ => false

/-- `KNOWN_SAFE_CODES` from app.py lines 225-230. -/
def KNOWN_SAFE_CODES : List String :=
  ["*123#", "*123*1#", "*123*1*1#", "*123*2#", "*123*4#", "*310#", "*311#", "*312#",
   "*321#", "*131#", "*121#", "*124#", "*228#", "*901#", "*902#", "*909#", "*911#",
   "*826#", "*989#", "*737#", "*199#", "*#21#", "*#61#", "*#62#", "*#67#", "*#06#",
   "*244*1#", "*24542#", "*232#", "*233#", "*322#", "*326#", "*329#", "*565#", "*126#"]

/-- `SAFE_PREFIX_PATTERNS` from app.py lines 63-69 (duplicates kept as in
the source; only membership is ever used). -/
def SAFE_PREFIX_PATTERNS : List String :=
  ["*123", "*123*", "*310", "*311", "*312", "*323", "*321", "*131", "*404", "*606", "*244", "*244*", "*556",
   "*121", "*140", "*123", "*124", "*126", "*137", "*124", "*127", "*129", "*130", "*131", "*132", "*133",
   "*228", "*232", "*233", "*229", "*901", "*902", "*909", "*911", "*826", "*989", "*737", "*737*", "*779", "*779*",
   "*135", "*136", "*137", "*138", "*139", "*144", "*#21", "*#61", "*#62", "*#67", "*#06",
   "*199", "*770", "*894", "*329", "*565", "*326", "*24542", "*244*1", "*123*1", "*123*2", "*123*4"]

/-- `high_risk_kw` from app.py line 251. -/
def high_risk_kw : List String :=
  ["bvn", "pin", "password", "passcode", "verif", "auth"]

/-- `medium_risk_kw` from app.py line 252. -/
def medium_risk_kw : List String :=
  ["account", "confirm", "secure", "update", "validate"]

/-- USSD rule: format check (app.py lines 235-236), `+4` when the format
regex fails. -/
def fmt_step (c : List Char) (r : Nat × List String) : Nat × List String :=
  if ussd_format c then r else (r.1 + 4, r.2 ++ ["Invalid USSD format"])

/-- USSD rule: known-safe-prefix reduction (lines 238-241),
`max(0, score - 2)` is `Nat` truncated subtraction. -/
def safe_prefix_step (isk : Bool) (r : Nat × List String) : Nat × List String :=
  if isk then (r.1 - 2, r.2 ++ ["Known safe prefix"]) else r

/-- USSD rule: digit-run scoring (lines 243-249). -/
def digits_step (c : List Char) (r : Nat × List String) : Nat × List String :=
  let d := (c.filter Char.isDigit).length
  if 9 ≤ d then (r.1 + 6, r.2 ++ ["Long numeric sequence (" ++ toString d ++ " digits)"])
  else if 6 ≤ d then (r.1 + 2, r.2 ++ ["Moderate numeric sequence"])
  else r

/-- Keyword loop of app.py lines 255-258: add `pts` and a reason for each
listed keyword contained in `low`. -/
def kwFold (pts : Nat) (label : String) (low : List Char)
    (acc : Nat × List String) (kws : List String) : Nat × List String :=
  kws.foldl
    (fun a k =>
      if containsSub k.data low then (a.1 + pts, a.2 ++ [label ++ "\x27" ++ k ++ "\x27"])
      else a)
    acc

/-- `re.sub(r"^\*|\#$", "", c)` from line 260: drop one leading `*` and
one trailing `#`. -/
def seg_strip (c : List Char) : List Char :=
  let c1 := match c with | '*' :: t => t | l => l
  if c1.getLast? == some '#' then c1.dropLast else c1

/-- USSD rules on `*`-separated segments (lines 260-264). -/
def seg_step (c : List Char) (r : Nat × List String) : Nat × List String :=
  let segs := splitOnChar '*' (seg_strip c)
  let ra :=
    if 3 < segs.length then (r.1 + 3, r.2 ++ ["Many segments (" ++ toString segs.length ++ ")"])
    else r
  if segs.dedup.length ≤ 1 ∧ 1 < segs.length then (ra.1 + 4, ra.2 ++ ["Repeating segments"])
  else ra

/-- USSD rule: letters outside a known-safe prefix (lines 266-267). -/
def letters_step (isk : Bool) (c : List Char) (r : Nat × List String) : Nat × List String :=
  if c.any Char.isAlpha && !isk then (r.1 + 2, r.2 ++ ["Contains letters"]) else r

/-- USSD rule: unknown-prefix penalty (lines 269-270). -/
def unknown_step (isk : Bool) (r : Nat × List String) : Nat × List String :=
  if !isk then (r.1 + 1, r.2 ++ ["Unknown prefix"]) else r

/-- The accumulation part of `pattern_score_ussd` (lines 235-270), before
the final clamp, applied to an already-normalized non-whitelisted code. -/
def ussd_rules (c : List Char) : Nat × List String :=
  let is_known_safe := SAFE_PREFIX_PATTERNS.any (fun p => p.data.isPrefixOf c)
  let low := toLowerL c
  unknown_step is_known_safe
    (letters_step is_known_safe c
      (seg_step c
        (kwFold 4 "Medium-risk keyword: " low
          (kwFold 8 "High-risk keyword: " low
            (digits_step c (safe_prefix_step is_known_safe (fmt_step c (0, []))))
            high_risk_kw)
          medium_risk_kw)))

/-- `pattern_score_ussd` from app.py lines 220-275.  Returns the pair
(score, reasons); the final line clamps with `min(max(0, score), 10)`. -/
def pattern_score_ussd (code : List Char) : Nat × List String :=
  let c := normalize_ussd code
  if c = [] then (100, ["Empty code"])
  else if String.mk c ∈ KNOWN_SAFE_CODES then (0, ["Known safe telco/bank code"])
  else (min (max 0 (ussd_rules c).1) 10, (ussd_rules c).2)

/-- Result of the `/check-ussd` endpoint (offline path). -/
structure UssdCheck where
  code : List Char
  safe : Bool
  score : Nat
  reasons : List String
  verified_online : Bool
  cached : Bool
deriving DecidableEq

/-- `/check-ussd` from app.py lines 423-467 with `full_mode = False`.
The flat files behind `load_safe_ussd`, `load_blacklist_ussd` and
`read_ussd_cache` are passed as arguments; `none` models the HTTP 400
raised on an empty code. -/
def check_ussd (safe_set blacklist : List (List Char))
    (cache : List (List Char × (Bool × Nat × List String)))
    (code : List Char) : Option UssdCheck :=
  if code = [] then none
  else
    let norm := normalize_ussd code
    if norm ∈ blacklist then some ⟨norm, false, 10, ["Blacklisted"], false, false⟩
    else
      match cache.lookup norm with
      | some e => some ⟨norm, e.1, e.2.1, e.2.2, false, true⟩
      | none =>
        if norm ∈ safe_set then
          some ⟨norm, true, (pattern_score_ussd norm).1,
            (pattern_score_ussd norm).2 ++ ["In safe list"], false, false⟩
        else
          some ⟨norm, decide ((pattern_score_ussd norm).1 < 5),
            (pattern_score_ussd norm).1, (pattern_score_ussd norm).2, false, false⟩

/-- Python `string.punctuation` (apostrophe, backtick and braces written
as `\x` escapes). -/
def punctuation : List Char :=
  "!\"#$%&\x27()*+,-./:;<=>?@[\\]^_\x60\x7b|\x7d~".data

/-- `content.lower().translate(str.maketrans('', '', string.punctuation))`
from app.py line 283. -/
def smsNormalize (content : List Char) : List Char :=
  (toLowerL content).filter (fun ch => !(punctuation.contains ch))

/-- Match-at-position for `your otp is \d{4,6}`: the literal followed by
at least four digits (a search hit exists iff four digits follow). -/
def otpAt (l : List Char) : Bool :=
  "your otp is ".data.isPrefixOf l && 4 ≤ ((l.drop 12).takeWhile Char.isDigit).length

/-- Match-at-position for `verification code:?\s*\d+`. -/
def verifCodeAt (l : List Char) : Bool :=
  "verification code".data.isPrefixOf l &&
    (let r := l.drop 17
     let r2 := if r.head? == some ':' then r.tail else r
     match (r2.dropWhile isPySpace).head? with
     | some c => c.isDigit
     | none => false)

/-- Match-at-position for `meeting at \d`. -/
def meetingAt (l : List Char) : Bool :=
  "meeting at ".data.isPrefixOf l &&
    (match (l.drop 11).head? with | some c => c.isDigit | none => false)

/-- Match-at-position for `delivery (arriving|scheduled)`. -/
def deliveryAt (l : List Char) : Bool :=
  "delivery ".data.isPrefixOf l &&
    ("arriving".data.isPrefixOf (l.drop 9) || "scheduled".data.isPrefixOf (l.drop 9))

/-- Match-at-position for `hello,? how are you`. -/
def helloAt (l : List Char) : Bool :=
  "hello".data.isPrefixOf l &&
    (let r := l.drop 5
     let r2 := if r.head? == some ',' then r.tail else r
     " how are you".data.isPrefixOf r2)

/-- The `legitimate_patterns` loop of app.py lines 287-297: some whitelist
template matches somewhere in the normalized message. -/
def legit_match (normalized : List Char) : Bool :=
  scanP otpAt normalized || scanP verifCodeAt normalized ||
    scanP meetingAt normalized || scanP deliveryAt normalized ||
    scanP helloAt normalized

/-- `re.search(a ++ ".*" ++ b)` within one newline-free line (`.` does not
match a newline). -/
def lineChain2 (a b : List Char) (line : List Char) : Bool :=
  match afterSub a line with
  | none => false
  | some r => containsSub b r

/-- `re.search(a ++ ".*" ++ b ++ ".*\d+")` within one line. -/
def lineChainDigit (a b : List Char) (line : List Char) : Bool :=
  match afterSub a line with
  | none => false
  | some r =>
    match afterSub b r with
    | none => false
    | some r2 => r2.any Char.isDigit

/-- Some position starts a run of at least eight digits (`\d{8,}`). -/
def hasRun8 : List Char → Bool
  | [] => false
  | l@(_ :: t) => 8 ≤ (l.takeWhile Char.isDigit).length || hasRun8 t

/-- `re.search(r"call.*\d{8,}")` within one line. -/
def lineCallNum (line : List Char) : Bool :=
  match afterSub "call".data line with
  | none => false
  | some r => hasRun8 r

/-- Lift a per-line matcher to a whole string: since `.` never matches a
newline and the patterns contain no `\n`, a match lies inside one
newline-free segment. -/
def onLines (p : List Char → Bool) (l : List Char) : Bool :=
  (splitOnChar '\n' l).any p

def matchYouWon (l : List Char) : Bool := onLines (lineChainDigit "you".data "won".data) l

def matchCallNum (l : List Char) : Bool := onLines lineCallNum l

def matchClickHttp (l : List Char) : Bool := onLines (lineChain2 "click".data "http".data) l

def matchAccountVerif (l : List Char) : Bool := onLines (lineChain2 "account".data "verif".data) l

def matchFreeGift (l : List Char) : Bool := onLines (lineChain2 "free".data "gift".data) l

def matchYourBvn (l : List Char) : Bool := onLines (lineChain2 "your".data "bvn".data) l

/-- The `patterns` table of app.py lines 322-329. -/
def sms_patterns : List ((List Char → Bool) × Nat × String) :=
  [(matchYouWon, 6, "Winning announcement"),
   (matchCallNum, 5, "Unknown number request"),
   (matchClickHttp, 5, "Suspicious link"),
   (matchAccountVerif, 4, "Account verification"),
   (matchFreeGift, 4, "Free gift offer"),
   (matchYourBvn, 6, "BVN request")]

/-- `scam_indicators` of app.py lines 299-311, with the context-dependent
`otp` entry passed in. -/
def indicatorList (otpPts : Nat) : List (String × Nat) :=
  [("won", 4), ("win", 4), ("prize", 4), ("lottery", 5), ("million", 4), ("cash", 3),
   ("award", 3), ("claim", 3), ("urgent", 3), ("immediately", 3), ("verification", 2),
   ("bvn", 6), ("password", 5), ("pin", 5), ("transfer", 3), ("free", 3),
   ("gift", 3), ("congratulations", 2), ("congrats", 2), ("account", 3), ("bank", 2),
   ("otp", otpPts)]

/-- Result dictionary of `improved_check_sms_scam`; the early returns omit
the `content` and `score` keys, modelled with `none`. -/
structure SmsResult where
  content : Option (List Char)
  scam : Bool
  confidence : Nat
  score : Option Nat
  reasons : List String
deriving DecidableEq

/-- `improved_check_sms_scam` from app.py lines 277-348. -/
def improved_check_sms_scam (content : List Char) : SmsResult :=
  if content = [] then ⟨none, false, 0, none, []⟩
  else if ussd_format (pyStrip content) then ⟨none, false, 0, none, ["USSD code detected"]⟩
  else
    let normalized := smsNormalize content
    let words := splitWs normalized
    if legit_match normalized then ⟨none, false, 0, none, ["Legitimate communication pattern"]⟩
    else
      let otpPts :=
        if containsSub "otp".data normalized &&
            (["your", "code", "is", "verification"].any fun w => containsSub w.data normalized)
        then 1 else 3
      let base := words.foldl
        (fun (a : Nat × List (List Char)) w =>
          match List.lookup (String.mk w) (indicatorList otpPts) with
          | some p => (a.1 + p, a.2 ++ [w])
          | none => a)
        (0, [])
      let reasons0 :=
        if base.2 ≠ [] then
          ["Suspicious words: " ++ String.intercalate ", " (base.2.map String.mk)]
        else []
      let withPats := sms_patterns.foldl
        (fun (a : Nat × List String) pr =>
          if pr.1 normalized then (a.1 + pr.2.1, a.2 ++ [pr.2.2]) else a)
        (base.1, reasons0)
      let final :=
        if words.length = 1 ∧
            (words.headD [] = "congratulations".data ∨ words.headD [] = "congrats".data)
        then (withPats.1 - 3, ["Single word - needs context"])
        else withPats
      ⟨some content, decide (6 ≤ final.1), min final.1 10, some final.1, final.2⟩

/-- Result dictionary of `check_sms_message` in cyberguard_clean.py. -/
structure CleanSmsResult where
  safe : Bool
  confidence : Nat
  message : String
  color : String
deriving DecidableEq

/-- `scam_indicators` of cyberguard_clean.py lines 398-402. -/
def clean_indicators : List String :=
  ["won", "prize", "lottery", "congratulations", "claim",
   "free", "gift", "urgent", "bvn", "password", "pin",
   "verification", "suspended", "reset", "million", "cash"]

/-- `check_sms_message` from cyberguard_clean.py lines 388-449 (substring
keyword scoring over the lower-cased message, URL and phone checks, then
threshold buckets). -/
def check_sms_message (message : List Char) : CleanSmsResult :=
  if pyStrip message = [] then ⟨false, 0, "❌ Empty message", "gray"⟩
  else
    let normalized := toLowerL message
    let base := clean_indicators.foldl
      (fun (a : Nat × List String) ind =>
        if containsSub ind.data normalized then (a.1 + 5, a.2 ++ [ind]) else a)
      (0, [])
    let withUrl :=
      if containsSub "http://".data normalized || containsSub "https://".data normalized ||
          containsSub "www.".data normalized
      then (base.1 + 10, base.2 ++ ["suspicious_url"])
      else base
    let final :=
      if containsSub "call".data normalized && normalized.any Char.isDigit
      then (withUrl.1 + 8, withUrl.2 ++ ["phone_request"])
      else withUrl
    if 15 ≤ final.1 then
      ⟨false, 90, "🚨 HIGH-RISK SCAM SMS\nDetected: " ++ String.intercalate ", " (final.2.take 3), "red"⟩
    else if 10 ≤ final.1 then
      ⟨false, 75, "⚠️ SUSPICIOUS SMS\nDetected: " ++ String.intercalate ", " (final.2.take 2), "orange"⟩
    else if 5 ≤ final.1 then
      ⟨false, 60, "⚠️ POTENTIALLY RISKY\nDetected: " ++ final.2.headD "suspicious_content", "orange"⟩
    else ⟨true, 95, "✅ Likely legitimate SMS", "green"⟩

/-- Body of a `/community/report` request (app.py model `ReportRequest`). -/
structure ReportRequest where
  report_type : String
  content : List Char
  location : Option String
  username : Option String
deriving DecidableEq

/-- A community report entry as written by `submit_report` (app.py lines
514-518).  The geocoded `lat`/`lon` presentation fields are omitted: no
endpoint reads them back, and they never influence a status. -/
structure Report where
  report_type : String
  content : List Char
  location : String
  username : String
  timestamp : Nat
  status : String
deriving DecidableEq

/-- `submit_report` from app.py lines 510-522: append a new entry with
status `"Pending"`; the timestamp is passed in.  Returns the new list and
the created entry. -/
def submit_report (reports : List Report) (req : ReportRequest) (ts : Nat) :
    List Report × Report :=
  let entry : Report :=
    ⟨req.report_type, req.content, req.location.getD "Unknown",
      req.username.getD "Anonymous", ts, "Pending"⟩
  (reports ++ [entry], entry)

/-- `update_report_status` from app.py lines 530-549: set the status of
the indexed report to the client-supplied string (`none` models the HTTP
400 on a bad index).  The optional `add_safe` / `add_blacklist` file
appends touch only the safe/blacklist code files, never a report status,
and are not modelled here. -/
def update_report_status (reports : List Report) (index : Nat) (status : String) :
    Option (List Report) :=
  if h : index < reports.length then
    some (reports.set index { reports.get ⟨index, h⟩ with status := status })
  else none

/-- `approve_report` from app.py lines 700-741: a USSD report at a valid
index gets status `"Verified"` (the curated-code file append does not
touch report statuses and is not modelled). -/
def approve_report (reports : List Report) (index : Nat) : Option (List Report) :=
  if h : index < reports.length then
    if (reports.get ⟨index, h⟩).report_type ≠ "ussd" then none
    else some (reports.set index { reports.get ⟨index, h⟩ with status := "Verified" })
  else none

/-- `reject_report` from app.py lines 743-755: the indexed report gets
status `"Rejected"`. -/
def reject_report (reports : List Report) (index : Nat) : Option (List Report) :=
  if h : index < reports.length then
    some (reports.set index { reports.get ⟨index, h⟩ with status := "Rejected" })
  else none

/-- Minimal JSON values, the codomain of `json.loads`. -/
inductive Json where
  | null : Json
  | bool : Bool → Json
  | num : Int → Json
  | str : String → Json
  | arr : List Json → Json
  | obj : List (String × Json) → Json

/-- `read_reports` from app.py lines 166-170: `json.loads` of the reports
file, `[]` on any exception.  The file content (`none` = read error) and
the parser (`none` = parse error) are explicit arguments. -/
def read_reports (loads : String → Option Json) (file : Option String) : Json :=
  match file with
  | none => Json.arr []
  | some s =>
    match loads s with
    | none => Json.arr []
    | some v => v

/-- `read_ussd_cache` from app.py lines 181-185: `{}` on any exception. -/
def read_ussd_cache (loads : String → Option Json) (file : Option String) : Json :=
  match file with
  | none => Json.obj []
  | some s =>
    match loads s with
    | none => Json.obj []
    | some v => v

/-- `load_curated_codes` from app.py lines 205-210: `[]` on any
exception. -/
def load_curated_codes (loads : String → Option Json) (file : Option String) : Json :=
  match file with
  | none => Json.arr []
  | some s =>
    match loads s with
    | none => Json.arr []
    | some v => v

/-! Helper lemmas about the scoring pipeline. -/

theorem kwFold_fst_le (pts : Nat) (label : String) (low : List Char) :
    ∀ (kws : List String) (acc : Nat × List String),
      acc.1 ≤ (kwFold pts label low acc kws).1 := by
  intro kws
  induction kws with
  | nil => intro acc; exact le_refl _
  | cons k ks ih =>
    intro acc
    simp only [kwFold, List.foldl_cons]
    by_cases h : containsSub k.data low
    · simp only [h, if_true]
      have := ih (acc.1 + pts, acc.2 ++ [label ++ "\x27" ++ k ++ "\x27"])
      simp only [kwFold] at this
      exact le_trans (Nat.le_add_right _ _) this
    · simp only [h, if_false]
      have := ih acc
      simp only [kwFold] at this
      exact this

theorem kwFold_fst_hit (pts : Nat) (label : String) (low : List Char) (k : String) :
    ∀ (kws : List String) (acc : Nat × List String), k ∈ kws →
      containsSub k.data low = true →
      acc.1 + pts ≤ (kwFold pts label low acc kws).1 := by
  intro kws
  induction kws with
  | nil => intro acc hk _; exact absurd hk (List.not_mem_nil k)
  | cons q ks ih =>
    intro acc hk hc
    rcases List.mem_cons.mp hk with hq | hq
    · subst hq
      simp only [kwFold, List.foldl_cons, hc, if_true]
      have := kwFold_fst_le pts label low ks (acc.1 + pts, acc.2 ++ [label ++ "\x27" ++ k ++ "\x27"])
      simp only [kwFold] at this
      exact this
    · simp only [kwFold, List.foldl_cons]
      by_cases h : containsSub q.data low
      · simp only [h, if_true]
        have step := ih (acc.1 + pts, acc.2 ++ [label ++ "\x27" ++ q ++ "\x27"]) hq hc
        simp only [kwFold] at step
        exact le_trans (by omega) step
      · simp only [h, if_false]
        have step := ih acc hq hc
        simp only [kwFold] at step
        exact step

theorem seg_step_fst_le (c : List Char) (r : Nat × List String) :
    r.1 ≤ (seg_step c r).1 := by
  simp only [seg_step]
  split
  · split
    · omega
    · omega
  · split
    · omega
    · omega

theorem letters_step_fst_le (isk : Bool) (c : List Char) (r : Nat × List String) :
    r.1 ≤ (letters_step isk c r).1 := by
  simp only [letters_step]
  split
  · exact Nat.le_add_right _ _
  · exact le_refl _

theorem unknown_step_fst_le (isk : Bool) (r : Nat × List String) :
    r.1 ≤ (unknown_step isk r).1 := by
  simp only [unknown_step]
  split
  · exact Nat.le_add_right _ _
  · exact le_refl _

theorem clamp8 (a : Nat) (h : 8 ≤ a) : 8 ≤ min (max 0 a) 10 :=
  le_min (le_trans h (le_max_right 0 a)) (by norm_num)

theorem ussd_rules_ge8 (c : List Char) (k : String) (hk : k ∈ high_risk_kw)
    (hc : containsSub k.data (toLowerL c) = true) : 8 ≤ (ussd_rules c).1 := by
  simp only [ussd_rules]
  refine le_trans ?_ (unknown_step_fst_le _ _)
  refine le_trans ?_ (letters_step_fst_le _ _ _)
  refine le_trans ?_ (seg_step_fst_le _ _)
  refine le_trans ?_ (kwFold_fst_le _ _ _ _ _)
  exact le_trans (Nat.le_add_left 8 _) (kwFold_fst_hit 8 _ _ k high_risk_kw _ hk hc)

theorem known_safe_score (code : List Char)
    (hW : String.mk (normalize_ussd code) ∈ KNOWN_SAFE_CODES) :
    pattern_score_ussd code = (0, ["Known safe telco/bank code"]) := by
  have hne : normalize_ussd code ≠ [] := by
    intro h0
    rw [h0] at hW
    exact absurd hW (by decide)
  simp only [pattern_score_ussd]
  rw [if_neg hne, if_pos hW]

theorem whitelist_normalized :
    ∀ s ∈ KNOWN_SAFE_CODES, normalize_ussd s.data = s.data := by decide

theorem map_set_aux {α β : Type} (f : α → β) :
    ∀ (l : List α) (n : Nat) (a : α), (l.set n a).map f = (l.map f).set n (f a) := by
  intro l
  induction l with
  | nil => intro n a; rfl
  | cons x xs ih =>
    intro n a
    cases n with
    | zero => rfl
    | succ m => simp only [List.set, List.map, ih]

/-! The claims. -/

/-- C1, counterexample: the claim says both scorers stay in `[0, 10]` for
every input, in particular the empty string; but `pattern_score_ussd` on
the empty string returns 100. -/
theorem c1_empty_code_counterexample :
    (pattern_score_ussd (toL "")).1 = 100 ∧ ¬(pattern_score_ussd (toL "")).1 ≤ 10 := by
  decide

/-- C1, amended: for every input whose normalized form is non-empty, the
USSD score is clamped to `[0, 10]` (the empty input returns the sentinel
100), and the SMS confidence is clamped to `[0, 10]` for every input. -/
theorem c1_score_clamped (code content : List Char) (h : normalize_ussd code ≠ []) :
    (pattern_score_ussd code).1 ≤ 10 ∧ (improved_check_sms_scam content).confidence ≤ 10 := by
  constructor
  · simp only [pattern_score_ussd]
    split
    · exact absurd ‹normalize_ussd code = []› h
    · split
      · exact Nat.zero_le 10
      · exact min_le_right _ _
  · simp only [improved_check_sms_scam]
    split
    · exact Nat.zero_le 10
    · split
      · exact Nat.zero_le 10
      · split
        · exact Nat.zero_le 10
        · exact min_le_right _ _

/-- Witness for C1 (amended) at a concrete code and SMS. -/
theorem c1_score_clamped_witness :
    (pattern_score_ussd (toL "*2#")).1 ≤ 10 ∧
    (improved_check_sms_scam (toL "hi")).confidence ≤ 10 :=
  c1_score_clamped (toL "*2#") (toL "hi") (by decide)

/-- C2: any code whose normalized form contains `bvn`, `pin` or `password`
(case-insensitively) and is not whitelisted scores at least 8 after the
clamp. -/
theorem c2_high_risk_keyword_scam (code : List Char)
    (hkw : containsSub (toL "bvn") (toLowerL (normalize_ussd code)) = true ∨
           containsSub (toL "pin") (toLowerL (normalize_ussd code)) = true ∨
           containsSub (toL "password") (toLowerL (normalize_ussd code)) = true)
    (hW : String.mk (normalize_ussd code) ∉ KNOWN_SAFE_CODES) :
    8 ≤ (pattern_score_ussd code).1 := by
  have key : ∀ k : String, k ∈ high_risk_kw →
      containsSub k.data (toLowerL (normalize_ussd code)) = true →
      8 ≤ (pattern_score_ussd code).1 := by
    intro k hk hc
    have hne : normalize_ussd code ≠ [] := by
      intro h0
      rw [h0] at hc
      fin_cases hk <;> exact absurd hc (by decide)
    simp only [pattern_score_ussd]
    rw [if_neg hne, if_neg hW]
    exact clamp8 _ (ussd_rules_ge8 _ k hk hc)
  rcases hkw with h | h | h
  · exact key "bvn" (by decide) h
  · exact key "pin" (by decide) h
  · exact key "password" (by decide) h

/-- Witness for C2 at the concrete code `*555bvn#`. -/
theorem c2_high_risk_keyword_scam_witness :
    8 ≤ (pattern_score_ussd (toL "*555bvn#")).1 :=
  c2_high_risk_keyword_scam (toL "*555bvn#") (Or.inl (by decide)) (by decide)

/-- C3: a whitelisted code scores 0, and `/check-ussd` classifies it
`safe = true` (whenever the mutable blacklist/cache files do not also
mention the code). -/
theorem c3_whitelist_safe (code : List Char)
    (safe_set blacklist : List (List Char))
    (cache : List (List Char × (Bool × Nat × List String)))
    (hW : String.mk (normalize_ussd code) ∈ KNOWN_SAFE_CODES)
    (hB : normalize_ussd code ∉ blacklist)
    (hC : List.lookup (normalize_ussd code) cache = none) :
    pattern_score_ussd code = (0, ["Known safe telco/bank code"]) ∧
    (check_ussd safe_set blacklist cache code).map UssdCheck.safe = some true := by
  refine ⟨known_safe_score code hW, ?_⟩
  have hcne : code ≠ [] := by
    intro h0
    rw [h0] at hW
    exact absurd hW (by decide)
  have hfix : normalize_ussd (normalize_ussd code) = normalize_ussd code :=
    whitelist_normalized (String.mk (normalize_ussd code)) hW
  have hscore2 : pattern_score_ussd (normalize_ussd code) = (0, ["Known safe telco/bank code"]) := by
    apply known_safe_score
    rw [hfix]
    exact hW
  simp only [check_ussd, if_neg hcne, if_neg hB, hC]
  by_cases hs : normalize_ussd code ∈ safe_set
  · rw [if_pos hs]
    rfl
  · rw [if_neg hs]
    simp [hscore2]

/-- Witness for C3 at the whitelisted code `*901#` with empty file
state. -/
theorem c3_whitelist_safe_witness :
    pattern_score_ussd (toL "*901#") = (0, ["Known safe telco/bank code"]) ∧
    (check_ussd [] [] [] (toL "*901#")).map UssdCheck.safe = some true :=
  c3_whitelist_safe (toL "*901#") [] [] [] (by decide) (by decide) (by decide)

/-- C4, counterexample: `update_report_status` stores an arbitrary
client-supplied status (here `"Archived"`, outside the three-state set),
and `reject_report` moves an already-Verified report to Rejected, so the
claimed state machine does not hold. -/
theorem c4_status_machine_counterexample :
    ((update_report_status (submit_report [] ⟨"ussd", toL "*000#", none, none⟩ 0).1 0
        "Archived").getD []).map Report.status = ["Archived"] ∧
    ¬("Archived" = "Pending" ∨ "Archived" = "Verified" ∨ "Archived" = "Rejected") ∧
    ((approve_report (submit_report [] ⟨"ussd", toL "*000#", none, none⟩ 0).1 0).getD
        []).map Report.status = ["Verified"] ∧
    ((reject_report ((approve_report (submit_report [] ⟨"ussd", toL "*000#", none, none⟩ 0).1
        0).getD []) 0).getD []).map Report.status = ["Rejected"] := by
  decide

/-- C4, amended: reports are created with status Pending; approve-report
sets a USSD report to Verified and reject-report sets any report to
Rejected regardless of its previous status; update-report stores whatever
status string the client supplies, so statuses outside
`{Pending, Verified, Rejected}` are reachable. -/
theorem c4_status_transitions (reports : List Report) (req : ReportRequest)
    (ts idx : Nat) (st : String) (h : idx < reports.length) :
    (submit_report reports req ts).2.status = "Pending" ∧
    (update_report_status reports idx st).map (fun l => l.map Report.status) =
      some ((reports.map Report.status).set idx st) ∧
    ((reports.get ⟨idx, h⟩).report_type = "ussd" →
      (approve_report reports idx).map (fun l => l.map Report.status) =
        some ((reports.map Report.status).set idx "Verified")) ∧
    (reject_report reports idx).map (fun l => l.map Report.status) =
      some ((reports.map Report.status).set idx "Rejected") := by
  refine ⟨rfl, ?_, ?_, ?_⟩
  · simp only [update_report_status, dif_pos h, Option.map_some']
    rw [map_set_aux]
  · intro ht
    simp only [approve_report, dif_pos h, ht, ne_eq, not_true_eq_false, if_false,
      Option.map_some']
    rw [map_set_aux]
  · simp only [reject_report, dif_pos h, Option.map_some']
    rw [map_set_aux]

/-- Witness for C4 (amended) on a one-element report list. -/
theorem c4_status_transitions_witness :
    (submit_report [⟨"ussd", toL "*1#", "Lagos", "ada", 0, "Pending"⟩]
        ⟨"sms", toL "x", none, none⟩ 1).2.status = "Pending" ∧
    (update_report_status [⟨"ussd", toL "*1#", "Lagos", "ada", 0, "Pending"⟩] 0
        "Weird").map (fun l => l.map Report.status) =
      some ((([⟨"ussd", toL "*1#", "Lagos", "ada", 0, "Pending"⟩] : List Report).map
        Report.status).set 0 "Weird") ∧
    ((([⟨"ussd", toL "*1#", "Lagos", "ada", 0, "Pending"⟩] : List Report).get
        ⟨0, by decide⟩).report_type = "ussd" →
      (approve_report [⟨"ussd", toL "*1#", "Lagos", "ada", 0, "Pending"⟩] 0).map
          (fun l => l.map Report.status) =
        some ((([⟨"ussd", toL "*1#", "Lagos", "ada", 0, "Pending"⟩] : List Report).map
          Report.status).set 0 "Verified")) ∧
    (reject_report [⟨"ussd", toL "*1#", "Lagos", "ada", 0, "Pending"⟩] 0).map
        (fun l => l.map Report.status) =
      some ((([⟨"ussd", toL "*1#", "Lagos", "ada", 0, "Pending"⟩] : List Report).map
        Report.status).set 0 "Rejected") :=
  c4_status_transitions [⟨"ussd", toL "*1#", "Lagos", "ada", 0, "Pending"⟩]
    ⟨"sms", toL "x", none, none⟩ 1 0 "Weird" (by decide)

/-- C5: an SMS whose normalized form matches one of the legitimate
templates comes back with `scam = false` and `confidence = 0`, before any
keyword scoring. -/
theorem c5_legitimate_template_short_circuit (content : List Char)
    (h : legit_match (smsNormalize content) = true) :
    (improved_check_sms_scam content).scam = false ∧
    (improved_check_sms_scam content).confidence = 0 := by
  by_cases h1 : content = []
  · subst h1
    exact ⟨rfl, rfl⟩
  · by_cases h2 : ussd_format (pyStrip content) = true
    · simp only [improved_check_sms_scam, if_neg h1, if_pos h2]
      exact ⟨trivial, trivial⟩
    · simp only [improved_check_sms_scam, if_neg h1, if_neg h2, if_pos h]
      exact ⟨trivial, trivial⟩

/-- Witness for C5 at the OTP template. -/
theorem c5_legitimate_template_short_circuit_witness :
    (improved_check_sms_scam (toL "your otp is 1234")).scam = false ∧
    (improved_check_sms_scam (toL "your otp is 1234")).confidence = 0 :=
  c5_legitimate_template_short_circuit (toL "your otp is 1234") (by decide)

/-- C6: both scorers are pure functions of their input: equal inputs give
identical outputs (in this embedding they read no other state). -/
theorem c6_deterministic_scorers (a b : List Char) (h : a = b) :
    pattern_score_ussd a = pattern_score_ussd b ∧
    improved_check_sms_scam a = improved_check_sms_scam b := by
  subst h
  exact ⟨rfl, rfl⟩

/-- Witness for C6 at a concrete input. -/
theorem c6_deterministic_scorers_witness :
    pattern_score_ussd (toL "*901#") = pattern_score_ussd (toL "*901#") ∧
    improved_check_sms_scam (toL "*901#") = improved_check_sms_scam (toL "*901#") :=
  c6_deterministic_scorers (toL "*901#") (toL "*901#") rfl

/-- C7, counterexample: for `*123*password*#` the score is 8, not the
claimed cap of 10 (the known-safe-prefix reduction fires and no other
rule does). -/
theorem c7_password_example_counterexample :
    (pattern_score_ussd (toL "*123*password*#")).1 = 8 ∧
    (pattern_score_ussd (toL "*123*password*#")).1 ≠ 10 := by
  decide

/-- C7, amended: `*123*password*#` triggers the high-risk `password`
indicator, its format matches the regex so the safe-prefix reduction
applies, the final score is 8 (at or above the `score < 5` safety
threshold), and `/check-ussd` classifies it `safe = false` (whenever the
mutable files do not mention the code). -/
theorem c7_password_example (safe_set blacklist : List (List Char))
    (cache : List (List Char × (Bool × Nat × List String)))
    (hB : normalize_ussd (toL "*123*password*#") ∉ blacklist)
    (hC : List.lookup (normalize_ussd (toL "*123*password*#")) cache = none)
    (hS : normalize_ussd (toL "*123*password*#") ∉ safe_set) :
    pattern_score_ussd (toL "*123*password*#") =
      (8, ["Known safe prefix", "High-risk keyword: \x27password\x27"]) ∧
    (check_ussd safe_set blacklist cache (toL "*123*password*#")).map UssdCheck.safe =
      some false := by
  constructor
  · decide
  · have h8 : (pattern_score_ussd (normalize_ussd (toL "*123*password*#"))).1 = 8 := by decide
    simp only [check_ussd, if_neg (by decide : ¬(toL "*123*password*#" = [])),
      if_neg hB, hC, if_neg hS]
    simp [h8]

/-- Witness for C7 (amended) with empty file state. -/
theorem c7_password_example_witness :
    pattern_score_ussd (toL "*123*password*#") =
      (8, ["Known safe prefix", "High-risk keyword: \x27password\x27"]) ∧
    (check_ussd [] [] [] (toL "*123*password*#")).map UssdCheck.safe = some false :=
  c7_password_example [] [] [] (by decide) (by decide) (by decide)

/-- C8, counterexample: on the single word `congratulations` the clean
variant of the SMS check classifies the message as not safe while the
core scorer classifies it as not scam, so the variant does not compute
the same classification function. -/
theorem c8_variant_equivalence_counterexample :
    (check_sms_message (toL "congratulations")).safe ≠
      (!(improved_check_sms_scam (toL "congratulations")).scam) := by
  decide

/-- C8, amended: the variant servers are separate heuristics, not
cosmetic copies of the core scorers: on `congratulations`,
`check_sms_message` (cyberguard_clean.py) reports unsafe with confidence
60 while `improved_check_sms_scam` (app.py) reports non-scam with
confidence 0. -/
theorem c8_variant_divergence :
    (check_sms_message (toL "congratulations")).safe = false ∧
    (check_sms_message (toL "congratulations")).confidence = 60 ∧
    (improved_check_sms_scam (toL "congratulations")).scam = false ∧
    (improved_check_sms_scam (toL "congratulations")).confidence = 0 := by
  decide

/-- C9: every read or parse failure of a flat-file collection yields the
empty default: `read_reports` gives `[]`, `read_ussd_cache` gives `{}`,
`load_curated_codes` gives `[]`. -/
theorem c9_read_failure_defaults (loads : String → Option Json) (file : Option String)
    (h : file = none ∨ ∃ s, file = some s ∧ loads s = none) :
    read_reports loads file = Json.arr [] ∧
    read_ussd_cache loads file = Json.obj [] ∧
    load_curated_codes loads file = Json.arr [] := by
  rcases h with h | ⟨s, hs, hl⟩
  · subst h
    exact ⟨rfl, rfl, rfl⟩
  · subst hs
    simp only [read_reports, read_ussd_cache, load_curated_codes, hl]
    exact ⟨trivial, trivial, trivial⟩

/-- Witness for C9: missing file. -/
theorem c9_read_failure_defaults_witness :
    read_reports (fun _ => none) none = Json.arr [] ∧
    read_ussd_cache (fun _ => none) none = Json.obj [] ∧
    load_curated_codes (fun _ => none) none = Json.arr [] :=
  c9_read_failure_defaults (fun _ => none) none (Or.inl rfl)

/-- C10: any input whose stripped form matches the USSD format regex makes
the SMS scorer return `scam = false`, `confidence = 0` and the single
reason `USSD code detected`, before any keyword scoring. -/
theorem c10_ussd_shortcircuit_sms (content : List Char)
    (h : ussd_format (pyStrip content) = true) :
    improved_check_sms_scam content = ⟨none, false, 0, none, ["USSD code detected"]⟩ := by
  have hne : content ≠ [] := by
    intro h0
    rw [h0] at h
    exact absurd h (by decide)
  simp only [improved_check_sms_scam, if_neg hne, if_pos h]

/-- Witness for C10 at `*bvn*password#`, which contains high-risk
keywords yet short-circuits as a USSD code. -/
theorem c10_ussd_shortcircuit_sms_witness :
    improved_check_sms_scam (toL "*bvn*password#") =
      ⟨none, false, 0, none, ["USSD code detected"]⟩ :=
  c10_ussd_shortcircuit_sms (toL "*bvn*password#") (by decide)

end CyberGuard
